import Mathlib

/-!
Shallow embedding of `src/compress.c` (tinycompress library for compressed
audio offload in ALSA).

The C code drives a single device stream through a pluggable backend
(`compress->ops`): `open`, `close`, `ioctl`, `read`, `write`, `poll`.  The
backend implementations are not part of this repository's sources, so every
backend call is modelled by an environment value supplied to the Lean
function: a success flag, the `errno` a failing call sets, and the data a
successful call reports.  Machine integers are modelled as `Nat`/`Int`;
`unsigned int` wrap-around is written explicitly `% U32_MOD` where the code
can wrap.  The per-handle error *text* formatted by `oops` is not modelled;
the `errno` value `oops` records is kept (field `errnoVal`), together with
the C return value `-1`.
-/

namespace Tinycompress

/-! Numeric constants: Linux errno values, poll event bits, and the
constants from the headers `compress.c` includes. -/

def EPERM : Nat := 1
def EIO : Nat := 5
def ENXIO : Nat := 6
def ENODEV : Nat := 19
def EINVAL : Nat := 22
def ENODATA : Nat := 61
def EBADFD : Nat := 77

def POLLIN : Nat := 1
def POLLOUT : Nat := 4
def POLLERR : Nat := 8

/-- Direction bits from `tinycompress/tinycompress.h` (header outside `src/`;
only the two bits being distinct and nonzero matters to the code). -/
def COMPRESS_IN : Nat := 0x10000000

def COMPRESS_OUT : Nat := 0x20000000

/-- Default maximum time we will wait in a poll() - 20 seconds. -/
def DEFAULT_MAX_POLL_WAIT_MS : Int := 20000

/-- `SNDRV_PROTOCOL_VERSION(0, 1, 1)` = `(0 << 16) | (1 << 8) | 1`. -/
def SNDRV_PROTOCOL_VERSION_0_1_1 : Int := 257

/-- 2^32, the modulus of C `unsigned int` arithmetic. -/
def U32_MOD : Nat := 4294967296

/-! Data model. -/

/-- `struct snd_codec`.  The core only ever compares the `id` field
(capability membership); the remaining fields are opaque payload pushed to
the device, so the descriptor is modelled by its identity. -/
structure Codec where
  id : Nat
  deriving DecidableEq, Repr

/-- `struct compr_config`: fragment size in bytes, fragment count, and the
codec descriptor (`config->codec` is a pointer in C; the handle owns a
copied value, so it is embedded by value here). -/
structure Config where
  fragment_size : Nat
  fragments : Nat
  codec : Codec
  deriving DecidableEq, Repr

/-- `struct snd_compr_caps` as reported by `SNDRV_COMPRESS_GET_CAPS`.
`codecs` models the first `num_codecs` entries of the fixed-size codec id
array (so `num_codecs = codecs.length`). -/
structure Caps where
  codecs : List Nat
  min_fragment_size : Nat
  max_fragment_size : Nat
  min_fragments : Nat
  max_fragments : Nat
  deriving DecidableEq, Repr

/-- `struct compress`.  `error[COMPR_ERR_MAX]` (the formatted text) is not
modelled; `errnoVal` records the errno value that `oops` stores into the
global `errno`.  `data` and `snd_node` are backend-owned pointers with no
observable structure here; `opsPlugin` records which of the two ops tables
(`compr_plug_ops` vs `compr_hw_ops`) was bound at open time. -/
structure Compress where
  fd : Int
  flags : Nat
  config : Config
  running : Bool
  max_poll_wait_ms : Int
  nonblocking : Bool
  gapless_metadata : Bool
  next_track : Bool
  errnoVal : Nat
  opsPlugin : Bool
  deriving DecidableEq, Repr

/-- `oops(compress, e, fmt, ...)`: formats the error text (not modelled),
sets `errno = e`, and returns `-1`. -/
def oops (c : Compress) (e : Nat) : Int × Compress :=
  (-1, { c with errnoVal := e })

/-- `is_compress_running`: `(compress->fd >= 0) && compress->running`. -/
def is_compress_running (c : Compress) : Bool :=
  decide (0 ≤ c.fd) && c.running

/-- `is_compress_ready`: `compress->fd >= 0`. -/
def is_compress_ready (c : Compress) : Bool :=
  decide (0 ≤ c.fd)

/-- `get_compress_version`: one `SNDRV_COMPRESS_IOCTL_VERSION` ioctl.  On
ioctl failure it calls `oops` ("cant read version") and returns `-1`;
otherwise it returns the version value the ioctl wrote.  `verOk`/`verErrno`
and `verVal` are the environment for that backend call. -/
def get_compress_version (c : Compress) (verOk : Bool) (verErrno : Nat)
    (verVal : Int) : Int × Compress :=
  if verOk = false then
    ((oops c verErrno).1, (oops c verErrno).2)
  else (verVal, c)

/-! Lifecycle transitions.  Each takes the outcome of its single backend
ioctl as environment: `ioctlOk` and, on failure, the `errno` it sets. -/

/-- `compress_start`: requires ready; on ioctl success sets `running = 1`. -/
def compress_start (c : Compress) (ioctlOk : Bool) (ioctlErrno : Nat) :
    Int × Compress :=
  if is_compress_ready c = false then oops c ENODEV
  else if ioctlOk = false then oops c ioctlErrno
  else (0, { c with running := true })

/-- `compress_stop`: requires running; issues the stop ioctl.  Note the C
code does not reset `running` on success. -/
def compress_stop (c : Compress) (ioctlOk : Bool) (ioctlErrno : Nat) :
    Int × Compress :=
  if is_compress_running c = false then oops c ENODEV
  else if ioctlOk = false then oops c ioctlErrno
  else (0, c)

/-- `compress_pause`: requires running. -/
def compress_pause (c : Compress) (ioctlOk : Bool) (ioctlErrno : Nat) :
    Int × Compress :=
  if is_compress_running c = false then oops c ENODEV
  else if ioctlOk = false then oops c ioctlErrno
  else (0, c)

/-- `compress_resume`: no precondition; the ioctl outcome decides. -/
def compress_resume (c : Compress) (ioctlOk : Bool) (ioctlErrno : Nat) :
    Int × Compress :=
  if ioctlOk = false then oops c ioctlErrno
  else (0, c)

/-- `compress_drain`: requires running. -/
def compress_drain (c : Compress) (ioctlOk : Bool) (ioctlErrno : Nat) :
    Int × Compress :=
  if is_compress_running c = false then oops c ENODEV
  else if ioctlOk = false then oops c ioctlErrno
  else (0, c)

/-- `compress_partial_drain`: requires running, then requires the
`next_track` flag ("next track not signalled", EPERM); issues the
`SNDRV_COMPRESS_PARTIAL_DRAIN` ioctl; on success clears `next_track`.  The
second component records whether the drain ioctl was issued at all. -/
def compress_partial_drain (c : Compress) (ioctlOk : Bool) (ioctlErrno : Nat) :
    (Int × Compress) × Bool :=
  if is_compress_running c = false then (oops c ENODEV, false)
  else if c.next_track = false then (oops c EPERM, false)
  else if ioctlOk = false then (oops c ioctlErrno, true)
  else ((0, { c with next_track := false }), true)

/-- `compress_next_track`: requires running, then requires the
`gapless_metadata` flag ("metadata not set", EPERM); issues the
`SNDRV_COMPRESS_NEXT_TRACK` ioctl; on success sets `next_track = 1` and
clears `gapless_metadata`. -/
def compress_next_track (c : Compress) (ioctlOk : Bool) (ioctlErrno : Nat) :
    Int × Compress :=
  if is_compress_running c = false then oops c ENODEV
  else if c.gapless_metadata = false then oops c EPERM
  else if ioctlOk = false then oops c ioctlErrno
  else (0, { c with next_track := true, gapless_metadata := false })

/-- `struct compr_gapless_mdata`: encoder delay and padding sample counts. -/
structure GaplessMdata where
  encoder_delay : Nat
  encoder_padding : Nat
  deriving DecidableEq, Repr

/-- Environment for `compress_set_gapless_metadata`: outcomes of the version
ioctl and of the two `SNDRV_COMPRESS_SET_METADATA` ioctls (the padding push
comes first in the C code, then the delay push). -/
structure GaplessEnv where
  verOk : Bool
  verErrno : Nat
  verVal : Int
  paddingOk : Bool
  paddingErrno : Nat
  delayOk : Bool
  delayErrno : Nat
  deriving DecidableEq, Repr

/-- `compress_set_gapless_metadata`: requires ready; queries the protocol
version (a result `<= 0` aborts with `-1`, the version-read failure case
having already called `oops` inside `get_compress_version`); a version below
`SNDRV_PROTOCOL_VERSION(0,1,1)` is rejected with ENXIO ("gapless apis not
supported in kernel"); then pushes encoder padding and encoder delay as two
separate metadata ioctls; only when both succeed sets
`gapless_metadata = 1`. -/
def compress_set_gapless_metadata (c : Compress) (mdata : GaplessMdata)
    (env : GaplessEnv) : Int × Compress :=
  if is_compress_ready c = false then oops c ENODEV
  else
    let vr := get_compress_version c env.verOk env.verErrno env.verVal
    if vr.1 ≤ 0 then (-1, vr.2)
    else if vr.1 < SNDRV_PROTOCOL_VERSION_0_1_1 then oops vr.2 ENXIO
    else if env.paddingOk = false then oops vr.2 env.paddingErrno
    else if env.delayOk = false then oops vr.2 env.delayErrno
    else (0, { vr.2 with gapless_metadata := true })

/-- `compress_set_codec_params`: the C code requires
`is_compress_ready(compress) && compress->next_track` (one ENODEV "device
not ready" check for both), builds `snd_compr_params` from the handle's
negotiated `fragment_size`/`fragments` plus the argument codec, copies the
argument codec into `compress->config->codec` *before* issuing the
`SNDRV_COMPRESS_SET_PARAMS` ioctl, and clears `next_track` only on ioctl
success.  The second component is the parameter block pushed to the device
(`none` when no ioctl was issued). -/
def compress_set_codec_params (c : Compress) (codec : Codec) (ioctlOk : Bool)
    (ioctlErrno : Nat) : (Int × Compress) × Option (Nat × Nat × Codec) :=
  if is_compress_ready c = false || c.next_track = false then
    (oops c ENODEV, none)
  else
    let params := (c.config.fragment_size, c.config.fragments, codec)
    let c1 : Compress := { c with config := { c.config with codec := codec } }
    if ioctlOk = false then (oops c1 ioctlErrno, some params)
    else ((0, { c1 with next_track := false }), some params)

/-! Open and close. -/

/-- Environment for `compress_open`: the outcomes of the two `calloc` calls,
the node-type classification, and the backend `open`, `GET_CAPS` and
`SET_PARAMS` calls. -/
structure OpenEnv where
  allocCompressOk : Bool
  allocConfigOk : Bool
  nodePlugin : Bool
  openFd : Int
  openErrno : Nat
  capsOk : Bool
  capsErrno : Nat
  caps : Caps
  setParamsOk : Bool
  setParamsErrno : Nat
  deriving DecidableEq, Repr

/-- `compress_open(card, device, flags, config)`.  The C function returns
the static sentinel `&bad_compress` on every failure path; a returned
handle is modelled as `Option Compress` with `none` standing for the
sentinel.  The caller's `config` is a pointer the function may mutate (the
"do not care" default fill); the second component is the caller's config
after the call.  Flow, in source order: null-config check; `calloc` of the
handle (zeroing every field); clear `next_track`/`gapless_metadata`;
`calloc` of the owned config copy; default poll wait; store flags and check
a direction bit is set; resolve the node and bind the ops table; backend
`open`; `GET_CAPS`; fill fragment defaults when the caller passed zero;
copy the config into the handle; `SET_PARAMS`; success. -/
def compress_open (card device : Nat) (flags : Nat) (config : Option Config)
    (env : OpenEnv) : Option Compress × Option Config :=
  match config with
  | none => (none, none)
  | some cfg =>
    if env.allocCompressOk = false then (none, some cfg)
    else if env.allocConfigOk = false then (none, some cfg)
    else if flags &&& COMPRESS_OUT = 0 && flags &&& COMPRESS_IN = 0 then
      (none, some cfg)
    else if env.openFd < 0 then (none, some cfg)
    else if env.capsOk = false then (none, some cfg)
    else
      let cfg1 : Config :=
        if cfg.fragment_size = 0 || cfg.fragments = 0 then
          { cfg with fragment_size := env.caps.min_fragment_size,
                     fragments := env.caps.max_fragments }
        else cfg
      let c : Compress :=
        { fd := env.openFd, flags := flags, config := cfg1,
          running := false, max_poll_wait_ms := DEFAULT_MAX_POLL_WAIT_MS,
          nonblocking := false, gapless_metadata := false,
          next_track := false, errnoVal := 0, opsPlugin := env.nodePlugin }
      if env.setParamsOk = false then (none, some cfg1)
      else (some c, some cfg1)

/-- What `compress_close` did: released the device node
(`snd_utils_put_dev_node`), closed the backend connection (`ops->close`),
freed the owned config, freed the handle itself. -/
structure CloseActions where
  putNode : Bool
  closedConn : Bool
  freedConfig : Bool
  freedHandle : Bool
  deriving DecidableEq, Repr

/-- `compress_close`: the very first statement compares the argument against
the static sentinel (`compress == &bad_compress`, modelled by `none`) and
returns at once in that case; otherwise it releases the node, closes the
connection, clears `running`/`fd` and frees the config and the handle. -/
def compress_close : Option Compress → CloseActions
  | none => ⟨false, false, false, false⟩
  | some _ => ⟨true, true, true, true⟩

/-! Queries. -/

/-- `compress_get_hpointer`: requires ready; one `SNDRV_COMPRESS_AVAIL`
ioctl reporting `avail` bytes plus a timestamp (`pcm_io_frames`,
`sampling_rate`, both 32-bit unsigned in the kernel struct); a zero
sampling rate is rejected with ENODATA ("sample rate unknown").  Otherwise
`tv_sec = frames / rate` (computed in `__u64`) and
`tv_nsec = (frames % rate) * 1000000000 / rate` (also `__u64`; with 32-bit
frames and rate the product stays below 2^64, so the `Nat` arithmetic here
is exactly the C computation).  The second component is the
`(avail, tv_sec, tv_nsec)` output triple, `none` on failure. -/
def compress_get_hpointer (c : Compress) (availOk : Bool) (availErrno : Nat)
    (avail : Nat) (pcm_io_frames : Nat) (sampling_rate : Nat) :
    (Int × Compress) × Option (Nat × Nat × Nat) :=
  if is_compress_ready c = false then (oops c ENODEV, none)
  else if availOk = false then (oops c availErrno, none)
  else if sampling_rate = 0 then (oops c ENODATA, none)
  else ((0, c),
    some (avail, pcm_io_frames / sampling_rate,
      pcm_io_frames % sampling_rate * 1000000000 / sampling_rate))

/-- `compress_get_tstamp`: requires ready; one `SNDRV_COMPRESS_TSTAMP`
ioctl; no rate-defined check. -/
def compress_get_tstamp (c : Compress) (tstampOk : Bool) (tstampErrno : Nat)
    (pcm_io_frames : Nat) (sampling_rate : Nat) :
    (Int × Compress) × Option (Nat × Nat) :=
  if is_compress_ready c = false then (oops c ENODEV, none)
  else if tstampOk = false then (oops c tstampErrno, none)
  else ((0, c), some (pcm_io_frames, sampling_rate))

/-! The flow-controlled transfer engine (`compress_write` and
`compress_read`).  Each iteration of the C while-loop makes up to three
backend calls: the `SNDRV_COMPRESS_AVAIL` ioctl, possibly `ops->poll`, and
possibly `ops->write`/`ops->read`.  One `XIter` record supplies the
environment for one iteration: whichever of its fields the control flow
reaches are the results of those calls.  The backend transfer primitive is
a function of the requested byte count, matching `ops->write(data, cbuf,
to_write)`. -/

structure XIter where
  availOk : Bool
  availErrno : Nat
  avail : Nat
  pollRet : Int
  pollRevents : Nat
  pollErrno : Nat
  xferRes : Nat → Int
  xferErrno : Nat

/-- What one loop iteration decided: return `v` from the function, break
out of the loop (the C code then returns `total`; the nonblocking
`return total` is folded into this same outcome), continue to the next
iteration without transferring, or transfer `w` bytes. -/
inductive StepOut where
  | ret (v : Int)
  | brk
  | next
  | xfer (w : Nat)
  deriving DecidableEq, Repr

/-- Result of a transfer call: `done v` when the C function returned `v`;
`more` when the supplied iteration trace ran out with the loop still
going. -/
inductive XferRet where
  | done (v : Int)
  | more
  deriving DecidableEq, Repr

/-- The tail of a `compress_write` iteration: `to_write = size > avail ?
avail : size`, then `written = ops->write(...)`; a negative result with
`errno == EBADFD` breaks the loop ("If play was paused"), any other
negative result is `oops` ("write failed!"); otherwise `written` bytes were
transferred. -/
def writeXfer (size : Nat) (it : XIter) : StepOut :=
  let to_write := if size > it.avail then it.avail else size
  let written := it.xferRes to_write
  if written < 0 then
    if it.xferErrno = EBADFD then .brk else .ret (-1)
  else .xfer written.toNat

/-- One `compress_write` loop iteration, in source order: the avail ioctl
(failure returns `oops(errno, "cannot get avail")`); if fewer than one
fragment and fewer than the remaining bytes are available: nonblocking
returns `total`, otherwise poll - `POLLERR` in `revents` returns
`oops(EIO)`, a zero result or a negative result with `errno == EBADFD`
breaks ("A pause will cause -EBADFD or zero"), any other negative result
returns `oops(errno, "poll error")`, and `POLLOUT` continues the loop;
falling through (and the plentiful-avail path) runs the write.  The second
component counts the `ops->poll` calls this iteration made. -/
def writeIter (c : Compress) (size : Nat) (it : XIter) : StepOut × Nat :=
  if it.availOk = false then (.ret (-1), 0)
  else if it.avail < c.config.fragment_size ∧ it.avail < size then
    if c.nonblocking then (.brk, 0)
    else if it.pollRevents &&& POLLERR ≠ 0 then (.ret (-1), 1)
    else if it.pollRet = 0 ∨ (it.pollRet < 0 ∧ it.pollErrno = EBADFD) then
      (.brk, 1)
    else if it.pollRet < 0 then (.ret (-1), 1)
    else if it.pollRevents &&& POLLOUT ≠ 0 then (.next, 1)
    else (writeXfer size it, 1)
  else (writeXfer size it, 0)

/-- The `compress_write` while-loop.  `size` and `total` are the C locals
(`unsigned int size`, `int total`); `size -= written` is `unsigned`
arithmetic, kept as an explicit `% U32_MOD`.  Alongside the result, the
total number of `ops->poll` calls is returned. -/
def writeLoop (c : Compress) : List XIter → Nat → Nat → XferRet × Nat
  | [], size, total =>
    if size = 0 then (.done (total : Int), 0) else (.more, 0)
  | it :: rest, size, total =>
    if size = 0 then (.done (total : Int), 0)
    else
      match writeIter c size it with
      | (.ret v, p) => (.done v, p)
      | (.brk, p) => (.done (total : Int), p)
      | (.next, p) =>
        let r := writeLoop c rest size total
        (r.1, p + r.2)
      | (.xfer w, p) =>
        let r := writeLoop c rest
          ((size + (U32_MOD - w % U32_MOD)) % U32_MOD) (total + w)
        (r.1, p + r.2)

/-- `compress_write`: requires the `COMPRESS_IN` flag (`oops(EINVAL,
"Invalid flag set")`) and readiness (`oops(ENODEV)`), then runs the loop
with `total = 0`. -/
def compress_write (c : Compress) (size : Nat) (trace : List XIter) :
    XferRet × Nat :=
  if c.flags &&& COMPRESS_IN = 0 then (.done (-1), 0)
  else if is_compress_ready c = false then (.done (-1), 0)
  else writeLoop c trace size 0

/-- The tail of a `compress_read` iteration, mirroring `writeXfer`
(`num_read = ops->read(...)`; EBADFD breaks, other negative results are
`oops(errno, "read failed!")`). -/
def readXfer (size : Nat) (it : XIter) : StepOut :=
  let to_read := if size > it.avail then it.avail else size
  let num_read := it.xferRes to_read
  if num_read < 0 then
    if it.xferErrno = EBADFD then .brk else .ret (-1)
  else .xfer num_read.toNat

/-- One `compress_read` loop iteration; identical control flow to
`writeIter` with `POLLIN` as the readiness event. -/
def readIter (c : Compress) (size : Nat) (it : XIter) : StepOut × Nat :=
  if it.availOk = false then (.ret (-1), 0)
  else if it.avail < c.config.fragment_size ∧ it.avail < size then
    if c.nonblocking then (.brk, 0)
    else if it.pollRevents &&& POLLERR ≠ 0 then (.ret (-1), 1)
    else if it.pollRet = 0 ∨ (it.pollRet < 0 ∧ it.pollErrno = EBADFD) then
      (.brk, 1)
    else if it.pollRet < 0 then (.ret (-1), 1)
    else if it.pollRevents &&& POLLIN ≠ 0 then (.next, 1)
    else (readXfer size it, 1)
  else (readXfer size it, 0)

/-- The `compress_read` while-loop; see `writeLoop`. -/
def readLoop (c : Compress) : List XIter → Nat → Nat → XferRet × Nat
  | [], size, total =>
    if size = 0 then (.done (total : Int), 0) else (.more, 0)
  | it :: rest, size, total =>
    if size = 0 then (.done (total : Int), 0)
    else
      match readIter c size it with
      | (.ret v, p) => (.done v, p)
      | (.brk, p) => (.done (total : Int), p)
      | (.next, p) =>
        let r := readLoop c rest size total
        (r.1, p + r.2)
      | (.xfer w, p) =>
        let r := readLoop c rest
          ((size + (U32_MOD - w % U32_MOD)) % U32_MOD) (total + w)
        (r.1, p + r.2)

/-- `compress_read`: requires the `COMPRESS_OUT` flag and readiness, then
runs the loop with `total = 0`. -/
def compress_read (c : Compress) (size : Nat) (trace : List XIter) :
    XferRet × Nat :=
  if c.flags &&& COMPRESS_OUT = 0 then (.done (-1), 0)
  else if is_compress_ready c = false then (.done (-1), 0)
  else readLoop c trace size 0

/-! The standalone capability probe. -/

/-- `_is_codec_type_supported`: one `GET_CAPS` ioctl on an already-open
connection; on failure reports into the sentinel's error buffer and answers
`false`; otherwise scans the first `num_codecs` capability entries for one
equal to `codec->id` (the codec properties are not matched, per the TODO in
the source). -/
def _is_codec_type_supported (capsOk : Bool) (caps : Caps) (codec : Codec) :
    Bool :=
  if capsOk = false then false
  else caps.codecs.contains codec.id

/-- Environment for `is_codec_supported`: node classification and the
outcomes of the transient backend `open` and `GET_CAPS` calls. -/
structure ProbeEnv where
  nodePlugin : Bool
  openFd : Int
  openErrno : Nat
  capsOk : Bool
  capsErrno : Nat
  caps : Caps
  deriving DecidableEq, Repr

/-- What `is_codec_supported` released before returning. -/
structure ProbeActions where
  putNode : Bool
  closedConn : Bool
  deriving DecidableEq, Repr

/-- `is_codec_supported`: resolves the device node, binds an ops table, and
opens a transient connection.  When that open fails the C code reports into
the sentinel's buffer and returns `false` at once - without calling
`snd_utils_put_dev_node` on the node it resolved.  When the open succeeds
it runs the capability check, then releases the node and closes the
connection. -/
def is_codec_supported (card device : Nat) (flags : Nat) (codec : Codec)
    (env : ProbeEnv) : Bool × ProbeActions :=
  if env.openFd < 0 then (false, ⟨false, false⟩)
  else (_is_codec_type_supported env.capsOk env.caps codec, ⟨true, true⟩)

/-! Claim theorems. -/

/-- C1: `compress_next_track` succeeds only if the handle is running and
the gapless-metadata flag is armed; on success it arms the next-track flag
and clears the gapless-metadata flag, so a second `compress_next_track`
right after a successful one (no intervening successful
`compress_set_gapless_metadata`) fails with the not-armed error EPERM. -/
theorem claim_C1_next_track_one_shot (c : Compress) (ok : Bool) (e : Nat) :
    ((compress_next_track c ok e).1 = 0 →
      is_compress_running c = true ∧ c.gapless_metadata = true ∧
      (compress_next_track c ok e).2.next_track = true ∧
      (compress_next_track c ok e).2.gapless_metadata = false) ∧
    (¬(is_compress_running c = true ∧ c.gapless_metadata = true) →
      (compress_next_track c ok e).1 = -1) ∧
    (∀ ok2 e2, (compress_next_track c ok e).1 = 0 →
      (compress_next_track (compress_next_track c ok e).2 ok2 e2).1 = -1 ∧
      (compress_next_track (compress_next_track c ok e).2 ok2 e2).2.errnoVal
        = EPERM) := by
  by_cases hfd : (0 ≤ c.fd) <;>
    cases hrun : c.running <;>
    cases hgm : c.gapless_metadata <;>
    cases ok <;>
    simp_all [compress_next_track, oops, is_compress_running, EPERM, ENODEV]

def c1state : Compress :=
  { fd := 0, flags := COMPRESS_IN, config := ⟨4096, 4, ⟨1⟩⟩,
    running := true, max_poll_wait_ms := 20000, nonblocking := false,
    gapless_metadata := true, next_track := false, errnoVal := 0,
    opsPlugin := false }

theorem claim_C1_witness :
    (compress_next_track c1state true 0).1 = 0 ∧
    (compress_next_track c1state true 0).2.next_track = true ∧
    (compress_next_track c1state true 0).2.gapless_metadata = false ∧
    (compress_next_track (compress_next_track c1state true 0).2 true 0).1
      = -1 ∧
    (compress_next_track
      (compress_next_track c1state true 0).2 true 0).2.errnoVal = EPERM := by
  have h := claim_C1_next_track_one_shot c1state true 0
  have h0 : (compress_next_track c1state true 0).1 = 0 := by decide
  exact ⟨h0, (h.1 h0).2.2.1, (h.1 h0).2.2.2, (h.2.2 true 0 h0).1,
    (h.2.2 true 0 h0).2⟩

/-- C2: `compress_partial_drain` returns an error without issuing the
drain ioctl unless the handle is running and the next-track flag is armed
(EPERM "next track not signalled" when running but not armed); on success
it clears the next-track flag, so a second call without re-arming fails
without issuing the ioctl. -/
theorem claim_C2_partial_drain_gate (c : Compress) (ok : Bool) (e : Nat) :
    (¬(is_compress_running c = true ∧ c.next_track = true) →
      (compress_partial_drain c ok e).1.1 = -1 ∧
      (compress_partial_drain c ok e).2 = false) ∧
    (is_compress_running c = true → c.next_track = false →
      (compress_partial_drain c ok e).1.2.errnoVal = EPERM) ∧
    ((compress_partial_drain c ok e).1.1 = 0 →
      (compress_partial_drain c ok e).1.2.next_track = false) ∧
    (∀ ok2 e2, (compress_partial_drain c ok e).1.1 = 0 →
      (compress_partial_drain
        (compress_partial_drain c ok e).1.2 ok2 e2).1.1 = -1 ∧
      (compress_partial_drain
        (compress_partial_drain c ok e).1.2 ok2 e2).2 = false) := by
  by_cases hfd : (0 ≤ c.fd) <;>
    cases hrun : c.running <;>
    cases hnt : c.next_track <;>
    cases ok <;>
    simp_all [compress_partial_drain, oops, is_compress_running, EPERM,
      ENODEV]

def c2state : Compress :=
  { fd := 0, flags := COMPRESS_IN, config := ⟨4096, 4, ⟨1⟩⟩,
    running := true, max_poll_wait_ms := 20000, nonblocking := false,
    gapless_metadata := false, next_track := true, errnoVal := 0,
    opsPlugin := false }

theorem claim_C2_witness :
    (compress_partial_drain c2state true 0).1.1 = 0 ∧
    (compress_partial_drain c2state true 0).1.2.next_track = false ∧
    (compress_partial_drain
      (compress_partial_drain c2state true 0).1.2 true 0).1.1 = -1 ∧
    (compress_partial_drain
      (compress_partial_drain c2state true 0).1.2 true 0).2 = false := by
  have h := claim_C2_partial_drain_gate c2state true 0
  have h0 : (compress_partial_drain c2state true 0).1.1 = 0 := by decide
  exact ⟨h0, h.2.2.1 h0, (h.2.2.2 true 0 h0).1, (h.2.2.2 true 0 h0).2⟩

/-- C9: `compress_close` applied to the sentinel bad handle returned by
any failed open is a no-op: it releases no node, closes no connection and
frees no memory. -/
theorem claim_C9_close_bad_handle_noop :
    compress_close none = ⟨false, false, false, false⟩ := rfl

/-- C8: `compress_get_hpointer` errors when the handle is not device-ready
(ENODEV) or the device reports a zero sampling rate (ENODATA); otherwise
for frames `f` and rate `r ≠ 0` it returns exactly
`tv_sec = f / r` and `tv_nsec = (f % r) * 1000000000 / r` in integer
arithmetic. -/
theorem claim_C8_hpointer_arithmetic (c : Compress) (ok : Bool)
    (e avail frames rate : Nat) :
    (is_compress_ready c = false →
      (compress_get_hpointer c ok e avail frames rate).1.1 = -1 ∧
      (compress_get_hpointer c ok e avail frames rate).1.2.errnoVal
        = ENODEV) ∧
    (is_compress_ready c = true → ok = true → rate = 0 →
      (compress_get_hpointer c ok e avail frames rate).1.1 = -1 ∧
      (compress_get_hpointer c ok e avail frames rate).1.2.errnoVal
        = ENODATA) ∧
    (is_compress_ready c = true → ok = true → rate ≠ 0 →
      compress_get_hpointer c ok e avail frames rate =
        ((0, c), some (avail, frames / rate,
          frames % rate * 1000000000 / rate))) := by
  by_cases hfd : (0 ≤ c.fd) <;>
    cases ok <;>
    by_cases hr : rate = 0 <;>
    simp_all [compress_get_hpointer, oops, is_compress_ready, ENODEV,
      ENODATA]

def c8state : Compress :=
  { fd := 0, flags := COMPRESS_OUT, config := ⟨4096, 4, ⟨1⟩⟩,
    running := true, max_poll_wait_ms := 20000, nonblocking := false,
    gapless_metadata := false, next_track := false, errnoVal := 0,
    opsPlugin := false }

theorem claim_C8_witness :
    compress_get_hpointer c8state true 0 512 100000 44100 =
      ((0, c8state), some (512, 2, 267573696)) := by
  have h :=
    (claim_C8_hpointer_arithmetic c8state true 0 512 100000 44100).2.2
      (by decide) rfl (by decide)
  rw [h]

/-- C5: `compress_set_gapless_metadata` fails when the handle is not
device-ready (ENODEV) or when the queried protocol version is below the
minimum gapless-capable version (ENXIO, "not supported"); whenever the
call fails and the gapless-metadata flag was not already armed it stays
false; the flag becomes armed only when the whole call, including both
metadata pushes, succeeds. -/
theorem claim_C5_gapless_metadata_gate (c : Compress) (m : GaplessMdata)
    (env : GaplessEnv) :
    (is_compress_ready c = false →
      (compress_set_gapless_metadata c m env).1 = -1 ∧
      (compress_set_gapless_metadata c m env).2.errnoVal = ENODEV) ∧
    (is_compress_ready c = true → env.verOk = true → 0 < env.verVal →
      env.verVal < SNDRV_PROTOCOL_VERSION_0_1_1 →
      (compress_set_gapless_metadata c m env).1 = -1 ∧
      (compress_set_gapless_metadata c m env).2.errnoVal = ENXIO) ∧
    (c.gapless_metadata = false →
      (compress_set_gapless_metadata c m env).1 ≠ 0 →
      (compress_set_gapless_metadata c m env).2.gapless_metadata = false) ∧
    (c.gapless_metadata = false →
      (compress_set_gapless_metadata c m env).2.gapless_metadata = true →
      (compress_set_gapless_metadata c m env).1 = 0 ∧
      env.paddingOk = true ∧ env.delayOk = true) := by
  simp only [compress_set_gapless_metadata, get_compress_version, oops]
  split_ifs <;>
    simp_all [ENODEV, ENXIO]

def c5state : Compress :=
  { fd := 0, flags := COMPRESS_IN, config := ⟨4096, 4, ⟨1⟩⟩,
    running := true, max_poll_wait_ms := 20000, nonblocking := false,
    gapless_metadata := false, next_track := false, errnoVal := 0,
    opsPlugin := false }

def c5envOld : GaplessEnv :=
  { verOk := true, verErrno := 0, verVal := 256, paddingOk := true,
    paddingErrno := 0, delayOk := true, delayErrno := 0 }

theorem claim_C5_witness :
    (compress_set_gapless_metadata c5state ⟨0, 0⟩ c5envOld).1 = -1 ∧
    (compress_set_gapless_metadata c5state ⟨0, 0⟩ c5envOld).2.errnoVal
      = ENXIO ∧
    (compress_set_gapless_metadata c5state ⟨0, 0⟩
      c5envOld).2.gapless_metadata = false := by
  have h := claim_C5_gapless_metadata_gate c5state ⟨0, 0⟩ c5envOld
  refine ⟨(h.2.1 rfl rfl (by decide) (by decide)).1,
    (h.2.1 rfl rfl (by decide) (by decide)).2,
    h.2.2.1 rfl ?_⟩
  rw [(h.2.1 rfl rfl (by decide) (by decide)).1]
  decide

def c4state : Compress :=
  { fd := 0, flags := COMPRESS_IN, config := ⟨4096, 4, ⟨1⟩⟩,
    running := true, max_poll_wait_ms := 20000, nonblocking := false,
    gapless_metadata := false, next_track := false, errnoVal := 0,
    opsPlugin := false }

/-- C4, counterexample: a running, device-ready handle, a (non-null) codec
descriptor and a device push that would succeed, yet
`compress_set_codec_params` fails with ENODEV and pushes nothing - because
the code actually gates on `is_compress_ready && compress->next_track`,
not on `running` and a non-null codec as the claim states. -/
theorem claim_C4_counterexample :
    is_compress_running c4state = true ∧
    (compress_set_codec_params c4state ⟨2⟩ true 0).1.1 = -1 ∧
    (compress_set_codec_params c4state ⟨2⟩ true 0).1.2.errnoVal = ENODEV ∧
    (compress_set_codec_params c4state ⟨2⟩ true 0).2 = none := by decide

/-- C4, amended: `compress_set_codec_params` requires the handle to be
device-ready and the next-track flag armed, failing with ENODEV (and
pushing nothing) otherwise; the codec argument is not null-checked.  On
success it has pushed the new codec with the negotiated fragment size and
fragment count unchanged, overwritten the stored codec with the argument,
and cleared the next-track flag. -/
theorem claim_C4_amended_codec_params (c : Compress) (codec : Codec)
    (ok : Bool) (e : Nat) :
    (¬(is_compress_ready c = true ∧ c.next_track = true) →
      (compress_set_codec_params c codec ok e).1.1 = -1 ∧
      (compress_set_codec_params c codec ok e).1.2.errnoVal = ENODEV ∧
      (compress_set_codec_params c codec ok e).2 = none) ∧
    ((compress_set_codec_params c codec ok e).1.1 = 0 →
      (compress_set_codec_params c codec ok e).2 =
        some (c.config.fragment_size, c.config.fragments, codec) ∧
      (compress_set_codec_params c codec ok e).1.2.config.codec = codec ∧
      (compress_set_codec_params c codec ok e).1.2.config.fragment_size =
        c.config.fragment_size ∧
      (compress_set_codec_params c codec ok e).1.2.config.fragments =
        c.config.fragments ∧
      (compress_set_codec_params c codec ok e).1.2.next_track = false) := by
  by_cases hfd : (0 ≤ c.fd) <;>
    cases hnt : c.next_track <;>
    cases ok <;>
    simp_all [compress_set_codec_params, oops, is_compress_ready, ENODEV]

def c4armed : Compress :=
  { fd := 0, flags := COMPRESS_IN, config := ⟨4096, 4, ⟨1⟩⟩,
    running := true, max_poll_wait_ms := 20000, nonblocking := false,
    gapless_metadata := false, next_track := true, errnoVal := 0,
    opsPlugin := false }

theorem claim_C4_witness :
    (compress_set_codec_params c4armed ⟨2⟩ true 0).2 =
      some (4096, 4, ⟨2⟩) ∧
    (compress_set_codec_params c4armed ⟨2⟩ true 0).1.2.config.codec
      = ⟨2⟩ ∧
    (compress_set_codec_params c4armed ⟨2⟩ true 0).1.2.config.fragment_size
      = 4096 ∧
    (compress_set_codec_params c4armed ⟨2⟩ true 0).1.2.next_track
      = false := by
  have h := (claim_C4_amended_codec_params c4armed ⟨2⟩ true 0).2 (by decide)
  exact ⟨h.1, h.2.1, h.2.2.1, h.2.2.2.2⟩

def c10env : ProbeEnv :=
  { nodePlugin := false, openFd := -1, openErrno := 19, capsOk := true,
    capsErrno := 0, caps := ⟨[7], 64, 8192, 2, 16⟩ }

/-- C10, counterexample: a probe whose transient backend open fails
(`openFd = -1`) returns at once without releasing the resolved device
node, and answers `false` even though the capability list does contain the
queried codec identity - contradicting both the "always releases" and the
"true exactly when the list contains the id" parts of the claim. -/
theorem claim_C10_counterexample :
    (is_codec_supported 0 0 0 ⟨7⟩ c10env).2.putNode = false ∧
    (is_codec_supported 0 0 0 ⟨7⟩ c10env).1 = false ∧
    c10env.caps.codecs.contains (Codec.mk 7).id = true := by decide

/-- C10, amended: whenever the transient backend open succeeds,
`is_codec_supported` releases the node and closes the connection before
returning, whatever the capability query answers; when the open fails it
returns `false` without releasing the node; and the result is `true`
exactly when the open succeeded, the capability query succeeded and the
capability list contains a codec whose identity equals the queried
codec's id. -/
theorem claim_C10_amended_probe (card device flags : Nat) (codec : Codec)
    (env : ProbeEnv) :
    (0 ≤ env.openFd →
      (is_codec_supported card device flags codec env).2 = ⟨true, true⟩) ∧
    (env.openFd < 0 →
      is_codec_supported card device flags codec env =
        (false, ⟨false, false⟩)) ∧
    ((is_codec_supported card device flags codec env).1 = true ↔
      0 ≤ env.openFd ∧ env.capsOk = true ∧ codec.id ∈ env.caps.codecs) := by
  refine ⟨?_, ?_, ?_⟩
  · intro hge
    have hnl : ¬env.openFd < 0 := by omega
    unfold is_codec_supported
    rw [if_neg hnl]
  · intro hl
    unfold is_codec_supported
    rw [if_pos hl]
  · unfold is_codec_supported _is_codec_type_supported
    by_cases hl : env.openFd < 0
    · rw [if_pos hl]
      constructor
      · intro hfalse
        simp at hfalse
      · rintro ⟨hge, -, -⟩
        omega
    · rw [if_neg hl]
      have hge : 0 ≤ env.openFd := by omega
      cases hc : env.capsOk <;> simp [hc, hge]

def c10goodEnv : ProbeEnv :=
  { nodePlugin := false, openFd := 4, openErrno := 0, capsOk := true,
    capsErrno := 0, caps := ⟨[3, 7], 64, 8192, 2, 16⟩ }

theorem claim_C10_witness :
    (is_codec_supported 0 0 0 ⟨7⟩ c10goodEnv).2 = ⟨true, true⟩ ∧
    (is_codec_supported 0 0 0 ⟨7⟩ c10goodEnv).1 = true := by
  have h := claim_C10_amended_probe 0 0 0 ⟨7⟩ c10goodEnv
  exact ⟨h.1 (by decide), h.2.2.2 ⟨by decide, rfl, by decide⟩⟩

/-- C7: when the requested configuration has `fragment_size = 0` or
`fragments = 0`, a successfully opened handle's negotiated configuration
equals the device-reported minimum fragment size and maximum fragment
count; and every successfully opened handle starts not running, with the
default 20000 ms poll wait and both gapless flags cleared. -/
theorem claim_C7_open_defaults (card device flags : Nat) (cfg : Config)
    (env : OpenEnv) (h : Compress) (cfgOut : Option Config)
    (hopen : compress_open card device flags (some cfg) env
      = (some h, cfgOut)) :
    ((cfg.fragment_size = 0 ∨ cfg.fragments = 0) →
      h.config.fragment_size = env.caps.min_fragment_size ∧
      h.config.fragments = env.caps.max_fragments) ∧
    h.running = false ∧ h.max_poll_wait_ms = DEFAULT_MAX_POLL_WAIT_MS ∧
    h.gapless_metadata = false ∧ h.next_track = false := by
  simp only [compress_open] at hopen
  split_ifs at hopen <;>
    simp only [Prod.mk.injEq, Option.some.injEq, reduceCtorEq,
      false_and] at hopen
  all_goals
    (obtain ⟨hh, -⟩ := hopen;
     subst hh;
     simp_all [DEFAULT_MAX_POLL_WAIT_MS])

def c7cfg : Config := ⟨0, 0, ⟨5⟩⟩

def c7env : OpenEnv :=
  { allocCompressOk := true, allocConfigOk := true, nodePlugin := false,
    openFd := 3, openErrno := 0, capsOk := true, capsErrno := 0,
    caps := ⟨[5], 64, 8192, 2, 16⟩, setParamsOk := true,
    setParamsErrno := 0 }

def c7handle : Compress :=
  { fd := 3, flags := COMPRESS_IN, config := ⟨64, 16, ⟨5⟩⟩,
    running := false, max_poll_wait_ms := 20000, nonblocking := false,
    gapless_metadata := false, next_track := false, errnoVal := 0,
    opsPlugin := false }

theorem claim_C7_witness :
    c7handle.config.fragment_size = c7env.caps.min_fragment_size ∧
    c7handle.config.fragments = c7env.caps.max_fragments ∧
    c7handle.running = false ∧
    c7handle.max_poll_wait_ms = DEFAULT_MAX_POLL_WAIT_MS ∧
    c7handle.gapless_metadata = false ∧ c7handle.next_track = false := by
  have h := claim_C7_open_defaults 0 0 COMPRESS_IN c7cfg c7env c7handle
    (some c7handle.config) (by decide)
  exact ⟨(h.1 (Or.inl (by decide))).1, (h.1 (Or.inl (by decide))).2,
    h.2.1, h.2.2.1, h.2.2.2.1, h.2.2.2.2⟩

/-! Helper lemmas about the transfer engine, shared by the transfer
claims. -/

/-- Every `return` out of a write iteration carries `-1` (each comes from
an `oops` call). -/
lemma writeIter_ret_eq (c : Compress) (size : Nat) (it : XIter) (v : Int)
    (h : (writeIter c size it).1 = .ret v) : v = -1 := by
  simp only [writeIter, writeXfer] at h
  split_ifs at h <;> simp_all

/-- A nonblocking write iteration never calls `ops->poll`. -/
lemma writeIter_polls_nb (c : Compress) (size : Nat) (it : XIter)
    (h : c.nonblocking = true) : (writeIter c size it).2 = 0 := by
  simp only [writeIter, writeXfer]
  split_ifs <;> simp_all

/-- If the backend write never reports more bytes than it was asked to
transfer, `writeXfer` transfers at most the remaining size. -/
lemma writeXfer_le (size : Nat) (it : XIter)
    (hwf : ∀ n, it.xferRes n ≤ (n : Int)) (w : Nat)
    (h : writeXfer size it = .xfer w) : w ≤ size := by
  by_cases hgt : size > it.avail
  · have hc := Int.toNat_le.mpr (hwf it.avail)
    simp only [writeXfer, if_pos hgt] at h
    split_ifs at h
    simp only [StepOut.xfer.injEq] at h
    omega
  · have hc := Int.toNat_le.mpr (hwf size)
    simp only [writeXfer, if_neg hgt] at h
    split_ifs at h
    simp only [StepOut.xfer.injEq] at h
    omega

/-- If the backend write never over-reports, a write iteration transfers
at most the remaining size. -/
lemma writeIter_xfer_le (c : Compress) (size : Nat) (it : XIter) (w : Nat)
    (hwf : ∀ n, it.xferRes n ≤ (n : Int))
    (h : (writeIter c size it).1 = .xfer w) : w ≤ size := by
  simp only [writeIter] at h
  split_ifs at h <;> exact writeXfer_le size it hwf w h

/-- The C `size -= written` in `unsigned` arithmetic, when the subtrahend
is in range, is plain truncated subtraction. -/
lemma size_sub_wrap (size w : Nat) (hw : w ≤ size) (hs : size < U32_MOD) :
    (size + (U32_MOD - w % U32_MOD)) % U32_MOD = size - w := by
  have hwlt : w < U32_MOD := lt_of_le_of_lt hw hs
  rw [Nat.mod_eq_of_lt hwlt]
  have hsplit : size + (U32_MOD - w) = U32_MOD + (size - w) := by omega
  rw [hsplit, Nat.add_mod_left, Nat.mod_eq_of_lt (by omega)]

/-- A nonblocking write loop never calls `ops->poll`. -/
lemma writeLoop_polls_nb (c : Compress) (h : c.nonblocking = true) :
    ∀ (trace : List XIter) (size total : Nat),
      (writeLoop c trace size total).2 = 0 := by
  intro trace
  induction trace with
  | nil =>
    intro size total
    unfold writeLoop
    split_ifs <;> rfl
  | cons it rest ih =>
    intro size total
    unfold writeLoop
    split_ifs with h0
    · rfl
    · have hp := writeIter_polls_nb c size it h
      rcases hw : writeIter c size it with ⟨s, p⟩
      rw [hw] at hp
      cases s <;> simp_all [ih]

/-- If the backend write never over-reports, every non-negative `done`
result of the write loop is at most `total + size`. -/
lemma writeLoop_le (c : Compress) :
    ∀ (trace : List XIter) (size total : Nat) (v : Int),
      size < U32_MOD →
      (∀ it2 ∈ trace, ∀ n, it2.xferRes n ≤ (n : Int)) →
      (writeLoop c trace size total).1 = .done v → 0 ≤ v →
      v ≤ ((total + size : Nat) : Int) := by
  intro trace
  induction trace with
  | nil =>
    intro size total v hs hwf h hv
    unfold writeLoop at h
    split_ifs at h with h0
    simp only [XferRet.done.injEq] at h
    omega
  | cons it rest ih =>
    intro size total v hs hwf h hv
    unfold writeLoop at h
    split_ifs at h with h0
    · simp only [XferRet.done.injEq] at h
      omega
    · rcases hw : writeIter c size it with ⟨s, p⟩
      rw [hw] at h
      cases s with
      | ret v0 =>
        simp only [XferRet.done.injEq] at h
        have hv0 : v0 = -1 := writeIter_ret_eq c size it v0 (by rw [hw])
        omega
      | brk =>
        simp only [XferRet.done.injEq] at h
        omega
      | next =>
        simp only at h
        have hrec := ih size total v hs
          (fun it2 hm n => hwf it2 (List.mem_cons_of_mem _ hm) n) h hv
        omega
      | xfer w =>
        have hwle : w ≤ size :=
          writeIter_xfer_le c size it w
            (hwf it (List.mem_cons_self _ _)) (by rw [hw])
        simp only at h
        rw [size_sub_wrap size w hwle hs] at h
        have hrec := ih (size - w) (total + w) v (by omega)
          (fun it2 hm n => hwf it2 (List.mem_cons_of_mem _ hm) n) h hv
        omega

/-- Every `return` out of a read iteration carries `-1`. -/
lemma readIter_ret_eq (c : Compress) (size : Nat) (it : XIter) (v : Int)
    (h : (readIter c size it).1 = .ret v) : v = -1 := by
  simp only [readIter, readXfer] at h
  split_ifs at h <;> simp_all

/-- A nonblocking read iteration never calls `ops->poll`. -/
lemma readIter_polls_nb (c : Compress) (size : Nat) (it : XIter)
    (h : c.nonblocking = true) : (readIter c size it).2 = 0 := by
  simp only [readIter, readXfer]
  split_ifs <;> simp_all

/-- If the backend read never over-reports, `readXfer` transfers at most
the remaining size. -/
lemma readXfer_le (size : Nat) (it : XIter)
    (hwf : ∀ n, it.xferRes n ≤ (n : Int)) (w : Nat)
    (h : readXfer size it = .xfer w) : w ≤ size := by
  by_cases hgt : size > it.avail
  · have hc := Int.toNat_le.mpr (hwf it.avail)
    simp only [readXfer, if_pos hgt] at h
    split_ifs at h
    simp only [StepOut.xfer.injEq] at h
    omega
  · have hc := Int.toNat_le.mpr (hwf size)
    simp only [readXfer, if_neg hgt] at h
    split_ifs at h
    simp only [StepOut.xfer.injEq] at h
    omega

/-- If the backend read never over-reports, a read iteration transfers at
most the remaining size. -/
lemma readIter_xfer_le (c : Compress) (size : Nat) (it : XIter) (w : Nat)
    (hwf : ∀ n, it.xferRes n ≤ (n : Int))
    (h : (readIter c size it).1 = .xfer w) : w ≤ size := by
  simp only [readIter] at h
  split_ifs at h <;> exact readXfer_le size it hwf w h

/-- A nonblocking read loop never calls `ops->poll`. -/
lemma readLoop_polls_nb (c : Compress) (h : c.nonblocking = true) :
    ∀ (trace : List XIter) (size total : Nat),
      (readLoop c trace size total).2 = 0 := by
  intro trace
  induction trace with
  | nil =>
    intro size total
    unfold readLoop
    split_ifs <;> rfl
  | cons it rest ih =>
    intro size total
    unfold readLoop
    split_ifs with h0
    · rfl
    · have hp := readIter_polls_nb c size it h
      rcases hw : readIter c size it with ⟨s, p⟩
      rw [hw] at hp
      cases s <;> simp_all [ih]

/-- If the backend read never over-reports, every non-negative `done`
result of the read loop is at most `total + size`. -/
lemma readLoop_le (c : Compress) :
    ∀ (trace : List XIter) (size total : Nat) (v : Int),
      size < U32_MOD →
      (∀ it2 ∈ trace, ∀ n, it2.xferRes n ≤ (n : Int)) →
      (readLoop c trace size total).1 = .done v → 0 ≤ v →
      v ≤ ((total + size : Nat) : Int) := by
  intro trace
  induction trace with
  | nil =>
    intro size total v hs hwf h hv
    unfold readLoop at h
    split_ifs at h with h0
    simp only [XferRet.done.injEq] at h
    omega
  | cons it rest ih =>
    intro size total v hs hwf h hv
    unfold readLoop at h
    split_ifs at h with h0
    · simp only [XferRet.done.injEq] at h
      omega
    · rcases hw : readIter c size it with ⟨s, p⟩
      rw [hw] at h
      cases s with
      | ret v0 =>
        simp only [XferRet.done.injEq] at h
        have hv0 : v0 = -1 := readIter_ret_eq c size it v0 (by rw [hw])
        omega
      | brk =>
        simp only [XferRet.done.injEq] at h
        omega
      | next =>
        simp only at h
        have hrec := ih size total v hs
          (fun it2 hm n => hwf it2 (List.mem_cons_of_mem _ hm) n) h hv
        omega
      | xfer w =>
        have hwle : w ≤ size :=
          readIter_xfer_le c size it w
            (hwf it (List.mem_cons_self _ _)) (by rw [hw])
        simp only at h
        rw [size_sub_wrap size w hwle hs] at h
        have hrec := ih (size - w) (total + w) v (by omega)
          (fun it2 hm n => hwf it2 (List.mem_cons_of_mem _ hm) n) h hv
        omega

/-- C6: for a nonblocking handle, a transfer never calls `ops->poll`;
whenever an iteration reports fewer available bytes than both one fragment
and the remaining request, the loop returns the running total immediately
(independently of the rest of the trace, with no poll); and, provided the
backend transfer primitive never reports more bytes than requested, every
non-negative result of `compress_write`/`compress_read` is at most the
requested size. -/
theorem claim_C6_nonblocking_transfer (c : Compress)
    (hnb : c.nonblocking = true) :
    (∀ size trace, (compress_write c size trace).2 = 0 ∧
      (compress_read c size trace).2 = 0) ∧
    (∀ (it : XIter) (rest : List XIter) (size total : Nat),
      it.availOk = true → it.avail < c.config.fragment_size →
      it.avail < size →
      writeLoop c (it :: rest) size total = (.done (total : Int), 0) ∧
      readLoop c (it :: rest) size total = (.done (total : Int), 0)) ∧
    (∀ size trace v, size < U32_MOD →
      (∀ it2 ∈ trace, ∀ n : Nat, it2.xferRes n ≤ (n : Int)) →
      ((compress_write c size trace).1 = .done v ∨
        (compress_read c size trace).1 = .done v) → 0 ≤ v →
      v ≤ (size : Int)) := by
  refine ⟨?_, ?_, ?_⟩
  · intro size trace
    constructor
    · unfold compress_write
      split_ifs
      · rfl
      · rfl
      · exact writeLoop_polls_nb c hnb trace size 0
    · unfold compress_read
      split_ifs
      · rfl
      · rfl
      · exact readLoop_polls_nb c hnb trace size 0
  · intro it rest size total ha hf hsz
    have h0 : ¬size = 0 := by omega
    have hiw : writeIter c size it = (.brk, 0) := by
      unfold writeIter
      rw [if_neg (by simp [ha]), if_pos (And.intro hf hsz), if_pos hnb]
    have hir : readIter c size it = (.brk, 0) := by
      unfold readIter
      rw [if_neg (by simp [ha]), if_pos (And.intro hf hsz), if_pos hnb]
    constructor
    · unfold writeLoop
      rw [if_neg h0, hiw]
    · unfold readLoop
      rw [if_neg h0, hir]
  · intro size trace v hs hwf hd hv
    rcases hd with hd | hd
    · unfold compress_write at hd
      split_ifs at hd
      · simp only [XferRet.done.injEq] at hd
        omega
      · simp only [XferRet.done.injEq] at hd
        omega
      · have hle := writeLoop_le c trace size 0 v hs hwf hd hv
        omega
    · unfold compress_read at hd
      split_ifs at hd
      · simp only [XferRet.done.injEq] at hd
        omega
      · simp only [XferRet.done.injEq] at hd
        omega
      · have hle := readLoop_le c trace size 0 v hs hwf hd hv
        omega

def c6state : Compress :=
  { fd := 0, flags := 0x30000000, config := ⟨4096, 4, ⟨1⟩⟩,
    running := true, max_poll_wait_ms := 20000, nonblocking := true,
    gapless_metadata := false, next_track := false, errnoVal := 0,
    opsPlugin := false }

def c6iter : XIter :=
  { availOk := true, availErrno := 0, avail := 2, pollRet := 1,
    pollRevents := 0, pollErrno := 0, xferRes := fun n => (n : Int),
    xferErrno := 0 }

theorem claim_C6_witness :
    writeLoop c6state [c6iter] 8 0 = (.done 0, 0) ∧
    readLoop c6state [c6iter] 8 0 = (.done 0, 0) ∧
    (compress_write c6state 8 [c6iter]).2 = 0 := by
  have h := claim_C6_nonblocking_transfer c6state rfl
  have h2 := h.2.1 c6iter [] 8 0 rfl (by decide) (by decide)
  exact ⟨h2.1, h2.2, (h.1 8 [c6iter]).1⟩

def c3state : Compress :=
  { fd := 0, flags := COMPRESS_IN, config := ⟨4096, 4, ⟨1⟩⟩,
    running := true, max_poll_wait_ms := 20000, nonblocking := false,
    gapless_metadata := false, next_track := false, errnoVal := 0,
    opsPlugin := false }

def c3iter : XIter :=
  { availOk := true, availErrno := 0, avail := 0, pollRet := 0,
    pollRevents := POLLERR, pollErrno := 0, xferRes := fun _ => 0,
    xferErrno := 0 }

/-- C3, counterexample: in a blocking write whose poll returns zero but
whose `revents` carries `POLLERR` (the C code checks `revents & POLLERR`
*before* the pause test, and on a failed or timed-out poll `revents` is
whatever the backend left there), the operation returns the negative EIO
error, not the non-negative count the claim promises for every
zero-result poll. -/
theorem claim_C3_counterexample :
    c3state.nonblocking = false ∧ c3iter.pollRet = 0 ∧
    compress_write c3state 8 [c3iter] = (.done (-1), 1) := by decide

/-- C3, amended: in a blocking-mode write or read, provided the poll did
not flag an error event (`POLLERR`) in `revents`: a poll returning zero,
or failing with the pause error code EBADFD, stops the transfer loop which
returns the non-negative count transferred so far, while any other poll
failure returns the negative error result; and a backend read/write
failure stops the loop with the non-negative count when `errno` is EBADFD
and returns the negative error result otherwise. -/
theorem claim_C3_amended_pause_semantics (c : Compress) (it : XIter)
    (rest : List XIter) (size total : Nat)
    (hnb : c.nonblocking = false) (hsz : 0 < size) :
    (it.availOk = true → it.avail < c.config.fragment_size →
     it.avail < size → it.pollRevents &&& POLLERR = 0 →
      ((it.pollRet = 0 ∨ (it.pollRet < 0 ∧ it.pollErrno = EBADFD)) →
        writeLoop c (it :: rest) size total = (.done (total : Int), 1) ∧
        readLoop c (it :: rest) size total = (.done (total : Int), 1)) ∧
      (it.pollRet < 0 → it.pollErrno ≠ EBADFD →
        writeLoop c (it :: rest) size total = (.done (-1), 1) ∧
        readLoop c (it :: rest) size total = (.done (-1), 1))) ∧
    (it.availOk = true →
     ¬(it.avail < c.config.fragment_size ∧ it.avail < size) →
     it.xferRes (if size > it.avail then it.avail else size) < 0 →
      (it.xferErrno = EBADFD →
        writeLoop c (it :: rest) size total = (.done (total : Int), 0) ∧
        readLoop c (it :: rest) size total = (.done (total : Int), 0)) ∧
      (it.xferErrno ≠ EBADFD →
        writeLoop c (it :: rest) size total = (.done (-1), 0) ∧
        readLoop c (it :: rest) size total = (.done (-1), 0))) := by
  have h0 : ¬size = 0 := by omega
  constructor
  · intro ha hf hs hperr
    have hperr2 : ¬it.pollRevents &&& POLLERR ≠ 0 := by omega
    constructor
    · intro hp
      have hiw : writeIter c size it = (.brk, 1) := by
        unfold writeIter
        rw [if_neg (by simp [ha]), if_pos (And.intro hf hs),
          if_neg (by simp [hnb]), if_neg hperr2, if_pos hp]
      have hir : readIter c size it = (.brk, 1) := by
        unfold readIter
        rw [if_neg (by simp [ha]), if_pos (And.intro hf hs),
          if_neg (by simp [hnb]), if_neg hperr2, if_pos hp]
      constructor
      · unfold writeLoop
        rw [if_neg h0, hiw]
      · unfold readLoop
        rw [if_neg h0, hir]
    · intro hp hne
      have hnp : ¬(it.pollRet = 0 ∨
          (it.pollRet < 0 ∧ it.pollErrno = EBADFD)) := by
        rintro (h1 | ⟨h2, h3⟩)
        · omega
        · exact hne h3
      have hiw : writeIter c size it = (.ret (-1), 1) := by
        unfold writeIter
        rw [if_neg (by simp [ha]), if_pos (And.intro hf hs),
          if_neg (by simp [hnb]), if_neg hperr2, if_neg hnp, if_pos hp]
      have hir : readIter c size it = (.ret (-1), 1) := by
        unfold readIter
        rw [if_neg (by simp [ha]), if_pos (And.intro hf hs),
          if_neg (by simp [hnb]), if_neg hperr2, if_neg hnp, if_pos hp]
      constructor
      · unfold writeLoop
        rw [if_neg h0, hiw]
      · unfold readLoop
        rw [if_neg h0, hir]
  · intro ha hnf hxl
    constructor
    · intro he
      have hxw : writeXfer size it = .brk := by
        simp only [writeXfer]
        rw [if_pos hxl, if_pos he]
      have hxr : readXfer size it = .brk := by
        simp only [readXfer]
        rw [if_pos hxl, if_pos he]
      have hiw : writeIter c size it = (.brk, 0) := by
        unfold writeIter
        rw [if_neg (by simp [ha]), if_neg hnf, hxw]
      have hir : readIter c size it = (.brk, 0) := by
        unfold readIter
        rw [if_neg (by simp [ha]), if_neg hnf, hxr]
      constructor
      · unfold writeLoop
        rw [if_neg h0, hiw]
      · unfold readLoop
        rw [if_neg h0, hir]
    · intro hne
      have hxw : writeXfer size it = .ret (-1) := by
        simp only [writeXfer]
        rw [if_pos hxl, if_neg hne]
      have hxr : readXfer size it = .ret (-1) := by
        simp only [readXfer]
        rw [if_pos hxl, if_neg hne]
      have hiw : writeIter c size it = (.ret (-1), 0) := by
        unfold writeIter
        rw [if_neg (by simp [ha]), if_neg hnf, hxw]
      have hir : readIter c size it = (.ret (-1), 0) := by
        unfold readIter
        rw [if_neg (by simp [ha]), if_neg hnf, hxr]
      constructor
      · unfold writeLoop
        rw [if_neg h0, hiw]
      · unfold readLoop
        rw [if_neg h0, hir]

def c3pause : XIter :=
  { availOk := true, availErrno := 0, avail := 0, pollRet := 0,
    pollRevents := 0, pollErrno := 0, xferRes := fun _ => 0,
    xferErrno := 0 }

theorem claim_C3_witness :
    writeLoop c3state [c3pause] 8 3 = (.done 3, 1) ∧
    readLoop c3state [c3pause] 8 3 = (.done 3, 1) := by
  have h := claim_C3_amended_pause_semantics c3state c3pause [] 8 3 rfl
    (by decide)
  exact (h.1 rfl (by decide) (by decide) (by decide)).1 (Or.inl (by decide))

end Tinycompress
